import Mathlib

/-
Verification of the static_upnp responder engine
(src/static_upnp/upnp_reciever.py) against its natural-language
specification.  The Python module is shallowly embedded below: datagrams
are lists of characters (one per byte, the protocol is ASCII), Python
exceptions are an explicit `Except` error channel, the mutable
`dict`s are association lists in insertion order (updating an existing
key keeps its position, as CPython dicts do), and the effectful send /
log / process-control statements are recorded in an explicit event
trace.  Zero-argument value producers ("callables" in the params
mapping) are modelled as state-passing functions over a `Nat` world so
that each invocation is observable.
-/

namespace StaticUpnp

/-- Bytes of a datagram, one `Char` per byte (the protocol is ASCII text). -/
abbrev Bytes := List Char

/-- Helper to write byte strings. -/
def bytes (s : String) : Bytes := s.data

/-- A sender or destination address: (host, port). -/
abbrev Addr := String × Nat

/-- The Python exceptions the embedded code can raise. -/
inductive PyErr where
  | valueError
  | keyError (k : String)
  | attributeError
  | unicodeError
  | oserror
deriving DecidableEq

/-- The characters Python's bytes.strip() removes. -/
def isPySpace (c : Char) : Bool :=
  c = ' ' || c = '\t' || c = '\n' || c = '\r' || c = '\x0b' || c = '\x0c'

/-- Python bytes.strip(): drop leading and trailing whitespace. -/
def pstrip (l : Bytes) : Bytes :=
  ((l.dropWhile isPySpace).reverse.dropWhile isPySpace).reverse

/-- Python bytes.split(sep) for a one-byte separator: empty pieces are
kept and splitting the empty string yields one empty piece. -/
def splitAll (c : Char) : Bytes → List Bytes
  | [] => [[]]
  | x :: xs =>
    let r := splitAll c xs
    if x = c then [] :: r
    else
      match r with
      | [] => [[x]]
      | y :: ys => (x :: y) :: ys

/-- Python bytes.split(sep, 1): split at the first occurrence of c.
`none` models the case where c does not occur; at the embedded call
sites the Python code then fails its 2-tuple unpacking with a
ValueError. -/
def splitFirst (c : Char) : Bytes → Option (Bytes × Bytes)
  | [] => none
  | x :: xs =>
    if x = c then some ([], xs)
    else
      match splitFirst c xs with
      | some (a, b) => some (x :: a, b)
      | none => none

/-- The AttributeDict that parse_search_request builds.  HEADERS is the
defaultdict(list) of the source, kept as the append-ordered list of
(name, value) pairs. -/
structure Request where
  METHOD : Bytes
  PATH : Bytes
  VERSION : Bytes
  HEADERS : List (Bytes × Bytes)
  REMOTE : Addr
deriving DecidableEq

/-- The defaultdict(list) view of HEADERS: all values recorded for a
header name, in append order (a missing name yields the empty list,
as defaultdict does). -/
def Request.getHeader (r : Request) (name : Bytes) : List Bytes :=
  (r.HEADERS.filter (fun p => decide (p.1 = name))).map (fun p => p.2)

/-- The verb check at the top of parse_search_request:
data.startswith(b"M-SEARCH") or data.startswith(b"NOTIFY"). -/
def recognizedVerb (data : Bytes) : Bool :=
  (bytes "M-SEARCH").isPrefixOf data || (bytes "NOTIFY").isPrefixOf data

/-- The header loop of parse_search_request: strip each line, skip empty
lines, split the rest on the first colon (a line with no colon fails
the 2-tuple unpacking: ValueError), strip the value and append the
(name, value) pair to the multimap. -/
def parseHeaderLines : List Bytes → Except PyErr (List (Bytes × Bytes))
  | [] => .ok []
  | l :: rest =>
    if (pstrip l).length = 0 then parseHeaderLines rest
    else
      match splitFirst ':' (pstrip l) with
      | none => .error .valueError
      | some (h, v) =>
        match parseHeaderLines rest with
        | .error e => .error e
        | .ok tl => .ok ((h, pstrip v) :: tl)

/-- parse_search_request: reject buffers that do not start with a
recognized verb (result none); otherwise delete every CR byte, split
request line from header block at the first LF (none: ValueError),
split the request line on single spaces into exactly three tokens
(otherwise ValueError), and collect the header multimap. -/
def parse_search_request : Bytes × Addr → Except PyErr (Option Request)
  | (data, sender) =>
    if recognizedVerb data then
      match splitFirst '\n' (data.filter (fun c => decide (c ≠ '\r'))) with
      | none => .error .valueError
      | some (http, hdrs) =>
        match splitAll ' ' http with
        | [m, p, v] =>
          match parseHeaderLines (splitAll '\n' hdrs) with
          | .error e => .error e
          | .ok pairs => .ok (some ⟨m, p, v, pairs, sender⟩)
        | _ => .error .valueError
    else .ok none

/-- The request_handlers list of the source (a single strategy today). -/
def request_handlers : List ((Bytes × Addr) → Except PyErr (Option Request)) :=
  [parse_search_request]

/-- The loop body of parse_request: try each handler in order, first
non-None result wins, a raised exception propagates. -/
def tryHandlers : List ((Bytes × Addr) → Except PyErr (Option Request)) →
    (Bytes × Addr) → Except PyErr (Option Request)
  | [], _ => .ok none
  | h :: rest, item =>
    match h item with
    | .ok none => tryHandlers rest item
    | r => r

/-- parse_request from the source. -/
def parse_request (item : Bytes × Addr) : Except PyErr (Option Request) :=
  tryHandlers request_handlers item

/-- Modelled from the spec (§4.1, §8), for the refinement claim C5: the
header multimap expected for one name, read off the raw datagram —
"split each header line on the first colon, trim whitespace, and append
the value to that header's list (preserving repeats)". -/
def specLineValues (lines : List Bytes) (name : Bytes) : List Bytes :=
  lines.filterMap (fun l =>
    if (pstrip l).length = 0 then none
    else
      match splitFirst ':' (pstrip l) with
      | none => none
      | some (h, v) => if h = name then some (pstrip v) else none)

/-- Modelled from the spec (§4.1, §8), for the refinement claim C5: the
values the spec expects under a header name, in original order of
appearance, for the header block of a datagram. -/
def specHeaderValues (data : Bytes) (name : Bytes) : List Bytes :=
  match splitFirst '\n' (data.filter (fun c => decide (c ≠ '\r'))) with
  | none => []
  | some (_, hdrs) => specLineValues (splitAll '\n' hdrs) name

/-- A Python value held in a params / service mapping or produced by a
template substitution: a str or (for the non-string entries the single
pass skips) an int. -/
inductive PyVal where
  | str (s : String)
  | int (n : Int)
deriving DecidableEq

/-- How a value renders when spliced into a {name} placeholder by
str.format. -/
def PyVal.toStr : PyVal → String
  | .str s => s
  | .int n => toString n

/-- The merged field mapping built by create_fmt: a Python dict in
insertion order (updating an existing key keeps its position). -/
abbrev Fmt := List (String × PyVal)

/-- dict lookup. -/
def lookupVal (m : Fmt) (k : String) : Option PyVal :=
  (m.find? (fun p => decide (p.1 = k))).map (fun p => p.2)

/-- dict store, CPython semantics: an existing key keeps its insertion
position, a new key is appended at the end. -/
def updateVal : Fmt → String → PyVal → Fmt
  | [], k, v => [(k, v)]
  | (k', v') :: rest, k, v =>
    if k' = k then (k', v) :: rest else (k', v') :: updateVal rest k v

/-- Python str.format(**fmt), restricted to the named placeholders the
module's templates use: the state is `none` outside a placeholder and
`some acc` (reversed name characters collected so far) inside one.
Doubled braces escape a literal brace; a lone closing brace or an
unterminated placeholder is a ValueError; an unknown name is a
KeyError.  Conversion / format-spec suffixes inside a placeholder are
not interpreted and count as part of the name. -/
def pyFormatGo (m : Fmt) : Option Bytes → Bytes → Except PyErr Bytes
  | none, [] => .ok []
  | some _, [] => .error .valueError
  | none, [c] =>
    if c = '{' || c = '}' then .error .valueError
    else (pyFormatGo m none []).map (fun t => c :: t)
  | none, c :: r :: rest2 =>
    if c = '{' then
      if r = '{' then (pyFormatGo m none rest2).map (fun t => '{' :: t)
      else pyFormatGo m (some []) (r :: rest2)
    else if c = '}' then
      if r = '}' then (pyFormatGo m none rest2).map (fun t => '}' :: t)
      else .error .valueError
    else (pyFormatGo m none (r :: rest2)).map (fun t => c :: t)
  | some acc, c :: rest =>
    if c = '}' then
      match lookupVal m (String.mk acc.reverse) with
      | none => .error (.keyError (String.mk acc.reverse))
      | some v => (pyFormatGo m none rest).map (fun t => v.toStr.data ++ t)
    else pyFormatGo m (some (c :: acc)) rest

/-- str.format(**m) on a template string. -/
def pyFormat (m : Fmt) (s : String) : Except PyErr String :=
  match pyFormatGo m none s.data with
  | .ok l => .ok (String.mk l)
  | .error e => .error e

/-- A descriptor param value: a plain value, or a zero-argument callable
(detected in the source with hasattr(value, "__call__")).  A callable
is modelled as a state-passing producer over the `Nat` world so that
every invocation is observable. -/
inductive ParamVal where
  | lit (v : PyVal)
  | producer (f : Nat → PyVal × Nat)

/-- First loop of create_fmt: evaluate every descriptor param into the
fresh fmt dict, invoking each callable once, in mapping order. -/
def evalParamsAux (acc : Fmt) : List (String × ParamVal) → Nat → Fmt × Nat
  | [], w => (acc, w)
  | (k, .lit v) :: rest, w => evalParamsAux (updateVal acc k v) rest w
  | (k, .producer f) :: rest, w =>
    let r := f w
    evalParamsAux (updateVal acc k r.1) rest r.2

/-- Second loop of create_fmt: overlay every Service key onto the dict
(the Service wins on conflict; an overridden key keeps its position). -/
def overlayService (fmt : Fmt) : List (String × PyVal) → Fmt
  | [] => fmt
  | (k, v) :: rest => overlayService (updateVal fmt k v) rest

/-- Third loop of create_fmt: one pass over the key list, replacing each
string value by its str.format(**fmt) against the current state of the
dict; non-string values are left alone.  A raised KeyError/ValueError
propagates. -/
def substKeys (fmt : Fmt) : List String → Except PyErr Fmt
  | [] => .ok fmt
  | k :: rest =>
    match lookupVal fmt k with
    | some (.str s) =>
      match pyFormat fmt s with
      | .ok s2 => substKeys (updateVal fmt k (.str s2)) rest
      | .error e => .error e
    | _ => substKeys fmt rest

/-- The single substitution pass of create_fmt, over the dict's keys in
insertion order. -/
def substPass (fmt : Fmt) : Except PyErr Fmt :=
  substKeys fmt (fmt.map (fun p => p.1))

/-- UPnPServiceResponder.create_fmt: evaluate the params, overlay the
service entry, then make exactly one substitution pass.  The second
component is the world after the producer invocations. -/
def create_fmt (params : List (String × ParamVal)) (service : List (String × PyVal))
    (w : Nat) : Except PyErr Fmt × Nat :=
  let ev := evalParamsAux [] params w
  (substPass (overlayService ev.1 service), ev.2)

/-- asciiOnly s: every character fits in ASCII (str.encode("ascii")
raises UnicodeEncodeError otherwise). -/
def asciiOnly (s : String) : Bool :=
  s.data.all (fun c => c.toNat < 128)

/-- str.encode("ascii"). -/
def encodeAscii (s : String) : Except PyErr Bytes :=
  if asciiOnly s then .ok s.data else .error .unicodeError

/-- str.replace("\n", "\r\n") on the underlying characters. -/
def crlfChars : Bytes → Bytes
  | [] => []
  | c :: r => if c = '\n' then '\r' :: '\n' :: crlfChars r else c :: crlfChars r

/-- str.replace("\n", "\r\n"). -/
def crlfReplace (s : String) : String :=
  String.mk (crlfChars s.data)

/-- The transport acquired by setup_sockets: the base class opens the
multicast UDP socket, the spoofing subclass a link-layer raw socket. -/
inductive TransportKind where
  | multicast
  | rawPacket
deriving DecidableEq

/-- The observable effects of the responder, in program order:
sends on the two socket paths, the log statements, and the
process-control statements of __init__ / shutdown / drop_privileges. -/
inductive Event where
  | unicastSend (payload : Bytes) (dest : Addr)
  | multicastSend (nts : String) (payload : Bytes) (dest : Addr)
  | logSearch (st : List Bytes) (found : Bool)
  | logInfo (msg : String)
  | setRunning (v : Nat)
  | startUnit (u : String)
  | joinUnit (u : String)
  | acquireTransport (k : TransportKind)
  | setgroupsCall
  | setgidCall
  | setuidCall
  | umaskCall
deriving DecidableEq

/-- The NTS tag of a notify-path send, none for every other event. -/
def Event.ntsOf : Event → Option String
  | .multicastSend nts _ _ => some nts
  | _ => none

/-- Whether an event is a search-response send. -/
def Event.isUnicast : Event → Bool
  | .unicastSend _ _ => true
  | _ => false

/-- Outcome of running an effectful fragment: the events emitted (in
order, kept even when an exception aborts the fragment), the number of
socket sends attempted so far, the producer world, and the normal /
exceptional result. -/
structure ExecRes (α : Type) where
  trace : List Event
  sends : Nat
  world : Nat
  result : Except PyErr α

/-- Whether the n-th socket send (0-based, counted across one embedded
call) succeeds or raises an OSError. -/
abbrev SendOracle := Nat → Bool

/-- A service entry: override key/value pairs layered onto the params;
its st key is the search target used for matching. -/
abbrev ServiceEntry := List (String × PyVal)

/-- A service descriptor: params, service entries and the two
templates (attributes NOTIFY and OK of the loaded descriptor). -/
structure SDescr where
  params : List (String × ParamVal)
  services : List ServiceEntry
  NOTIFY : String
  OK : String

/-- The inner loop of respond_ok_static over the request's ST header
values, for one service's resolved fmt: a value that does not start
with b"ssdp:" must equal fmt's st field byte for byte (fmt["st"]
missing is a KeyError, a non-str st an AttributeError at .encode),
otherwise the service is skipped for that value; on a match the OK
template is rendered, CRLF-normalized, ASCII-encoded and sent to the
requester (a failing send raises OSError and aborts). -/
def respondSTLoop (oracle : SendOracle) (okT : String) (fmt : Fmt) (remote : Addr)
    (found : Bool) (sc : Nat) : List Bytes → List Event × Nat × Except PyErr Bool
  | [] => ([], sc, .ok found)
  | rt :: rest =>
    let send : List Event × Nat × Except PyErr Bool :=
      match pyFormat fmt okT with
      | .error e => ([], sc, .error e)
      | .ok s =>
        match encodeAscii (crlfReplace s) with
        | .error e => ([], sc, .error e)
        | .ok payload =>
          if oracle sc then
            (Event.unicastSend payload remote ::
               (respondSTLoop oracle okT fmt remote true (sc + 1) rest).1,
             (respondSTLoop oracle okT fmt remote true (sc + 1) rest).2)
          else ([Event.unicastSend payload remote], sc + 1, .error .oserror)
    if (bytes "ssdp:").isPrefixOf rt then send
    else
      match lookupVal fmt "st" with
      | none => ([], sc, .error (.keyError "st"))
      | some (.int _) => ([], sc, .error .attributeError)
      | some (.str s) =>
        match encodeAscii s with
        | .error e => ([], sc, .error e)
        | .ok b =>
          if b = rt then send
          else respondSTLoop oracle okT fmt remote found sc rest

/-- The middle loop of respond_ok_static over one descriptor's service
entries: resolve the fmt for each service, then run the ST loop; an
exception aborts the remaining services. -/
def respondServiceLoop (oracle : SendOracle) (sd : SDescr) (stVals : List Bytes)
    (remote : Addr) (found : Bool) (sc w : Nat) :
    List ServiceEntry → List Event × Nat × Nat × Except PyErr Bool
  | [] => ([], sc, w, .ok found)
  | svc :: rest =>
    let r := create_fmt sd.params svc w
    match r.1 with
    | .error e => ([], sc, r.2, .error e)
    | .ok fmt =>
      let st := respondSTLoop oracle sd.OK fmt remote found sc stVals
      match st.2.2 with
      | .error e => (st.1, st.2.1, r.2, .error e)
      | .ok found2 =>
        let rec2 := respondServiceLoop oracle sd stVals remote found2 st.2.1 r.2 rest
        (st.1 ++ rec2.1, rec2.2)

/-- The outer loop of respond_ok_static over the configured
descriptors. -/
def respondDescrLoop (oracle : SendOracle) (stVals : List Bytes) (remote : Addr)
    (found : Bool) (sc w : Nat) :
    List SDescr → List Event × Nat × Nat × Except PyErr Bool
  | [] => ([], sc, w, .ok found)
  | sd :: rest =>
    let sv := respondServiceLoop oracle sd stVals remote found sc w sd.services
    match sv.2.2.2 with
    | .error e => (sv.1, sv.2.1, sv.2.2.1, .error e)
    | .ok found2 =>
      let rec2 := respondDescrLoop oracle stVals remote found2 sv.2.1 sv.2.2.1 rest
      (sv.1 ++ rec2.1, rec2.2)

/-- UPnPServiceResponder.respond_ok_static: iterate all descriptors and
services against the ST values of the request, then log the target
list and whether any service matched.  (The b"MX" in request check of
the source tests the AttributeDict's top-level keys, which are fixed,
so its debug branch never fires and is not an observable event.) -/
def respond_ok_static (oracle : SendOracle) (services : List SDescr) (req : Request)
    (sc w : Nat) : ExecRes Unit :=
  let stVals := req.getHeader (bytes "ST")
  let d := respondDescrLoop oracle stVals req.REMOTE false sc w services
  match d.2.2.2 with
  | .error e => ⟨d.1, d.2.1, d.2.2.1, .error e⟩
  | .ok found => ⟨d.1 ++ [Event.logSearch stVals found], d.2.1, d.2.2.1, .ok ()⟩

/-- UPnPServiceResponder.respond_ok: only dispatch to respond_ok_static
when services is not None. -/
def respond_ok (oracle : SendOracle) (services : Option (List SDescr)) (req : Request)
    (sc w : Nat) : ExecRes Unit :=
  match services with
  | none => ⟨[], sc, w, .ok ()⟩
  | some svcs => respond_ok_static oracle svcs req sc w

/-- One iteration of the dispatcher loop UPnPServiceResponder.run: parse
the dequeued datagram (an uncaught exception surfaces as .error — the
loop has no handler, so the dispatcher crashes), skip unrecognized
datagrams, and call respond_ok for M-SEARCH requests. -/
def runStep (oracle : SendOracle) (services : Option (List SDescr))
    (item : Bytes × Addr) (sc w : Nat) : ExecRes Unit :=
  match parse_request item with
  | .error e => ⟨[], sc, w, .error e⟩
  | .ok none => ⟨[], sc, w, .ok ()⟩
  | .ok (some req) =>
    if req.METHOD = bytes "M-SEARCH" then respond_ok oracle services req sc w
    else ⟨[], sc, w, .ok ()⟩

/-- The service loop of do_notify: resolve each service's fmt, store the
NTS value under key "nts", render the NOTIFY template, CRLF-normalize,
encode and multicast it.  (In the source the stored NTS value is a
Python bytes object; its rendered form is opaque here and no claim
depends on it, so it is carried as the string tag of the event and a
str value in the dict.) -/
def notifyServiceLoop (oracle : SendOracle) (sd : SDescr) (nts : String) (dest : Addr)
    (sc w : Nat) : List ServiceEntry → List Event × Nat × Nat × Except PyErr Unit
  | [] => ([], sc, w, .ok ())
  | svc :: rest =>
    let r := create_fmt sd.params svc w
    match r.1 with
    | .error e => ([], sc, r.2, .error e)
    | .ok fmt0 =>
      let fmt := updateVal fmt0 "nts" (.str nts)
      match pyFormat fmt sd.NOTIFY with
      | .error e => ([], sc, r.2, .error e)
      | .ok s =>
        match encodeAscii (crlfReplace s) with
        | .error e => ([], sc, r.2, .error e)
        | .ok payload =>
          if oracle sc then
            (Event.multicastSend nts payload dest ::
               (notifyServiceLoop oracle sd nts dest (sc + 1) r.2 rest).1,
             (notifyServiceLoop oracle sd nts dest (sc + 1) r.2 rest).2)
          else ([Event.multicastSend nts payload dest], sc + 1, r.2, .error .oserror)

/-- The descriptor loop of do_notify. -/
def notifyDescrLoop (oracle : SendOracle) (nts : String) (dest : Addr) (sc w : Nat) :
    List SDescr → List Event × Nat × Nat × Except PyErr Unit
  | [] => ([], sc, w, .ok ())
  | sd :: rest =>
    let sv := notifyServiceLoop oracle sd nts dest sc w sd.services
    match sv.2.2.2 with
    | .error e => (sv.1, sv.2.1, sv.2.2.1, .error e)
    | .ok _ =>
      let rec2 := notifyDescrLoop oracle nts dest sv.2.1 sv.2.2.1 rest
      (sv.1 ++ rec2.1, rec2.2)

/-- UPnPServiceResponder.do_notify: one announcement pass over every
descriptor and service, multicasting the rendered NOTIFY template with
the given NTS value to (address, port). -/
def do_notify (oracle : SendOracle) (services : List SDescr) (nts : String)
    (dest : Addr) (sc w : Nat) : ExecRes Unit :=
  let d := notifyDescrLoop oracle nts dest sc w services
  ⟨d.1, d.2.1, d.2.2.1, d.2.2.2⟩

/-- The scheduler's periodic action in schedule_handler:
do_notify(b"ssdp:alive"). -/
def schedule_tick (oracle : SendOracle) (services : List SDescr) (dest : Addr)
    (sc w : Nat) : ExecRes Unit :=
  do_notify oracle services "ssdp:alive" dest sc w

/-- UPnPServiceResponder.shutdown: set running to 0, join the scheduler
process, join the receiver process, then run the single goodbye
announcement pass and log; an exception in the pass propagates and
skips the logs. -/
def shutdown (oracle : SendOracle) (services : List SDescr) (dest : Addr)
    (sc w : Nat) : ExecRes Unit :=
  let pre : List Event :=
    [Event.setRunning 0, Event.joinUnit "schedule", Event.joinUnit "reciever"]
  let n := do_notify oracle services "ssdp:goodbye" dest sc w
  match n.result with
  | .error e => ⟨pre ++ n.trace, n.sends, n.world, .error e⟩
  | .ok _ =>
    ⟨pre ++ n.trace ++ [Event.logInfo "Shutdown", Event.logInfo "---------------------------"],
     n.sends, n.world, .ok ()⟩

/-- Straight-line event trace of UPnPServiceResponder.__init__: acquire
the multicast transport (setup_sockets), set running to 1, start the
receiver process, start the scheduler process. -/
def upnp_init_trace : List Event :=
  [Event.acquireTransport .multicast, Event.setRunning 1,
   Event.startUnit "reciever", Event.startUnit "schedule"]

/-- Straight-line event trace of
SpoofingUPnPServiceResponder.drop_privileges as a function of the
process uid at call time: a non-root process returns immediately,
root removes the supplementary groups, sets the gid, sets the uid and
applies the restrictive umask. -/
def drop_privileges_trace (uid : Nat) : List Event :=
  if uid = 0 then
    [Event.setgroupsCall, Event.setgidCall, Event.setuidCall, Event.umaskCall]
  else []

/-- Straight-line event trace of SpoofingUPnPServiceResponder.__init__:
the super().__init__ call acquires the raw-packet transport
(overridden setup_sockets), sets running to 1 and starts the receiver
and scheduler processes; only after it returns does the subclass call
drop_privileges. -/
def spoofing_init_trace (uid : Nat) : List Event :=
  [Event.acquireTransport .rawPacket, Event.setRunning 1,
   Event.startUnit "reciever", Event.startUnit "schedule"]
  ++ drop_privileges_trace uid

/-- Character list without placeholder braces: str.format leaves such a
string unchanged. -/
def braceFreeChars (l : Bytes) : Bool :=
  l.all (fun c => decide (c ≠ '{') && decide (c ≠ '}'))

/-- A value str.format cannot rewrite: an int (the pass skips
non-strings) or a placeholder-free string. -/
def braceFreeVal : PyVal → Bool
  | .str s => braceFreeChars s.data
  | .int _ => true

/-- Modelled from the spec (§4.2), for the refinement claim C2: "build a
working mapping by first evaluating every descriptor param (invoking
value-producers, copying literals), then overlaying every key from the
Service entry (Service wins on conflict)". -/
def specMergedMapping (params : List (String × ParamVal)) (service : ServiceEntry)
    (w : Nat) : Fmt × Nat :=
  let ev := params.foldl
    (fun (acc : Fmt × Nat) kv =>
      match kv.2 with
      | ParamVal.lit v => (updateVal acc.1 kv.1 v, acc.2)
      | ParamVal.producer f =>
        let r := f acc.2
        (updateVal acc.1 kv.1 r.1, r.2)) ([], w)
  (service.foldl (fun m kv => updateVal m kv.1 kv.2) ev.1, ev.2)

/-- Modelled from the spec (§4.2): one step of the single substitution
pass — replace a string value by its substitution against the current
mapping, keep non-strings, propagate a raised error. -/
def specOnePassStep (acc : Except PyErr Fmt) (k : String) : Except PyErr Fmt :=
  match acc with
  | .error e => .error e
  | .ok cur =>
    match lookupVal cur k with
    | some (.str s) =>
      match pyFormat cur s with
      | .ok s2 => .ok (updateVal cur k (.str s2))
      | .error e => .error e
    | _ => .ok cur

/-- Modelled from the spec (§4.2): "perform exactly one pass over all
string-valued entries in the merged mapping, replacing placeholders
using the current merged mapping as substitution source", in the
mapping's insertion order. -/
def specOnePass (m : Fmt) : Except PyErr Fmt :=
  (m.map (fun p => p.1)).foldl specOnePassStep (.ok m)

/-- Modelled from the spec (§4.2): the whole resolve(params, service)
operation the spec describes, to be compared against create_fmt. -/
def resolveSpec (params : List (String × ParamVal)) (service : ServiceEntry)
    (w : Nat) : Except PyErr Fmt × Nat :=
  let mw := specMergedMapping params service w
  (specOnePass mw.1, mw.2)

/-! Lemmas relating the embedded loops to their fold forms (used by the
refinement part of C2). -/

theorem evalParamsAux_eq_foldl (params : List (String × ParamVal)) :
    ∀ (acc : Fmt) (w : Nat),
      evalParamsAux acc params w =
        params.foldl
          (fun (a : Fmt × Nat) kv =>
            match kv.2 with
            | ParamVal.lit v => (updateVal a.1 kv.1 v, a.2)
            | ParamVal.producer f =>
              let r := f a.2
              (updateVal a.1 kv.1 r.1, r.2)) (acc, w) := by
  induction params with
  | nil => intro acc w; rfl
  | cons kv rest ih =>
    intro acc w
    obtain ⟨k, pv⟩ := kv
    cases pv with
    | lit v => simp [evalParamsAux, List.foldl, ih]
    | producer f => simp [evalParamsAux, List.foldl, ih]

theorem overlayService_eq_foldl (svc : List (String × PyVal)) :
    ∀ fmt : Fmt,
      overlayService fmt svc = svc.foldl (fun m kv => updateVal m kv.1 kv.2) fmt := by
  induction svc with
  | nil => intro fmt; rfl
  | cons kv rest ih =>
    intro fmt
    obtain ⟨k, v⟩ := kv
    simp [overlayService, List.foldl, ih]

theorem foldl_specOnePassStep_error (keys : List String) (e : PyErr) :
    keys.foldl specOnePassStep (.error e) = .error e := by
  induction keys with
  | nil => rfl
  | cons k rest ih => simp [List.foldl, specOnePassStep, ih]

theorem substKeys_eq_foldl (keys : List String) :
    ∀ fmt : Fmt, substKeys fmt keys = keys.foldl specOnePassStep (.ok fmt) := by
  induction keys with
  | nil => intro fmt; rfl
  | cons k rest ih =>
    intro fmt
    cases hl : lookupVal fmt k with
    | none => simp [substKeys, List.foldl, specOnePassStep, hl, ih]
    | some v =>
      cases v with
      | int n => simp [substKeys, List.foldl, specOnePassStep, hl, ih]
      | str s =>
        cases hf : pyFormat fmt s with
        | ok s2 => simp [substKeys, List.foldl, specOnePassStep, hl, hf, ih]
        | error e =>
          simp [substKeys, List.foldl, specOnePassStep, hl, hf,
                foldl_specOnePassStep_error]

/-- Claim C2: template resolution is single-pass in insertion order.
create_fmt equals the spec-side resolve (evaluate params, overlay the
Service entry, then exactly one substitution pass over the merged
mapping in insertion order, substituting from its current state); in
the demonstration mapping where a holds a placeholder naming b, b one
naming c, c the literal X and d one naming a, the entry a (whose
placeholder names the later entry b) receives b's unresolved value
verbatim while d (whose placeholder names the earlier entry a)
receives a's resolved value; running the pass again would
change the result, so no fixed-point iteration occurs; and a
Service-level field naming a later Service-level field likewise stays
unresolved. -/
theorem c2_single_pass_resolution :
    (∀ (params : List (String × ParamVal)) (service : ServiceEntry) (w : Nat),
        create_fmt params service w = resolveSpec params service w) ∧
    (∀ w : Nat,
        create_fmt
            [("a", ParamVal.lit (PyVal.str "{b}")), ("b", ParamVal.lit (PyVal.str "{c}")),
             ("c", ParamVal.lit (PyVal.str "X")), ("d", ParamVal.lit (PyVal.str "{a}"))]
            [] w =
          (.ok [("a", PyVal.str "{c}"), ("b", PyVal.str "X"),
                ("c", PyVal.str "X"), ("d", PyVal.str "{c}")], w)) ∧
    (substPass [("a", PyVal.str "{c}"), ("b", PyVal.str "X"),
                ("c", PyVal.str "X"), ("d", PyVal.str "{c}")] =
        .ok [("a", PyVal.str "X"), ("b", PyVal.str "X"),
             ("c", PyVal.str "X"), ("d", PyVal.str "X")] ∧
      [("a", PyVal.str "X"), ("b", PyVal.str "X"),
       ("c", PyVal.str "X"), ("d", PyVal.str "X")] ≠
        [("a", PyVal.str "{c}"), ("b", PyVal.str "X"),
         ("c", PyVal.str "X"), ("d", PyVal.str "{c}")]) ∧
    (∀ w : Nat,
        create_fmt [("p", ParamVal.lit (PyVal.str "V"))]
            [("s1", PyVal.str "{s2}"), ("s2", PyVal.str "{p}")] w =
          (.ok [("p", PyVal.str "V"), ("s1", PyVal.str "{p}"),
                ("s2", PyVal.str "V")], w)) := by
  refine ⟨?_, fun w => by rfl, ⟨by rfl, by decide⟩, fun w => by rfl⟩
  intro params service w
  simp only [create_fmt, resolveSpec, specMergedMapping, substPass, specOnePass,
             evalParamsAux_eq_foldl, overlayService_eq_foldl, substKeys_eq_foldl]

/-- Claim C9: a zero-argument value producer is invoked exactly once per
render and never cached: rendering the counter producer advances the
world by exactly one, and two consecutive renders of the same service
see two consecutive counter values, hence different field mappings. -/
theorem c9_producer_freshness :
    ∀ n : Nat,
      create_fmt
          [("bootid", ParamVal.producer (fun k => (PyVal.int (Int.ofNat k), k + 1)))]
          [] n =
        (.ok [("bootid", PyVal.int (Int.ofNat n))], n + 1) ∧
      create_fmt
          [("bootid", ParamVal.producer (fun k => (PyVal.int (Int.ofNat k), k + 1)))]
          []
          ((create_fmt
              [("bootid", ParamVal.producer (fun k => (PyVal.int (Int.ofNat k), k + 1)))]
              [] n).2) =
        (.ok [("bootid", PyVal.int (Int.ofNat (n + 1)))], n + 2) ∧
      ([("bootid", PyVal.int (Int.ofNat n))] : Fmt) ≠
        [("bootid", PyVal.int (Int.ofNat (n + 1)))] := by
  intro n
  refine ⟨rfl, rfl, ?_⟩
  intro h
  rw [List.cons.injEq, Prod.mk.injEq] at h
  obtain ⟨⟨-, h2⟩, -⟩ := h
  rw [PyVal.int.injEq] at h2
  injection h2 with h3
  omega

/-- Claim C10: with services constructed as None, respond_ok on any
parsed request emits no event (no send, no log) and raises nothing. -/
theorem c10_respond_ok_none :
    ∀ (oracle : SendOracle) (req : Request) (sc w : Nat),
      respond_ok oracle none req sc w = ⟨[], sc, w, .ok ()⟩ := by
  intro oracle req sc w
  rfl

/-- Claim C8, counterexample: with params k = "paramval", x = "X" and a
Service entry whose k holds a placeholder naming x, the mapping
produced by create_fmt associates k with "X" — the substituted form —
and not with the Service entry's value verbatim (the placeholder
string), so "the final value associated with k is the
Service entry's value" fails as stated. -/
theorem c8_counterexample :
    lookupVal [("k", PyVal.str "{x}")] "k" = some (PyVal.str "{x}") ∧
    (create_fmt
        [("k", ParamVal.lit (PyVal.str "paramval")), ("x", ParamVal.lit (PyVal.str "X"))]
        [("k", PyVal.str "{x}")] 0).1 =
      .ok [("k", PyVal.str "X"), ("x", PyVal.str "X")] ∧
    PyVal.str "X" ≠ PyVal.str "{x}" := by
  exact ⟨rfl, by rfl, by decide⟩

/-- Claim C7, counterexample: in the spoofing responder's startup
run as root, the receiver unit is started strictly before the setuid of
the privilege drop, so privileges are not dropped before the
concurrent units start running. -/
theorem c7_counterexample :
    Event.setuidCall ∈ spoofing_init_trace 0 ∧
    Event.startUnit "reciever" ∈ spoofing_init_trace 0 ∧
    (spoofing_init_trace 0).indexOf (Event.startUnit "reciever") <
      (spoofing_init_trace 0).indexOf Event.setuidCall := by
  exact ⟨by decide, by decide, by decide⟩

/-- Claim C7, amended: in the spoofing variant the privileges are
dropped (setgroups, setgid, setuid, umask, and only when the process
runs as root) immediately after the base class startup returns — that
is, after the raw-packet transport is acquired and after the receiver
and scheduler units have been started — and nothing follows the drop
during startup. -/
theorem c7_amended (uid : Nat) :
    spoofing_init_trace uid =
        [Event.acquireTransport .rawPacket, Event.setRunning 1,
         Event.startUnit "reciever", Event.startUnit "schedule"]
          ++ drop_privileges_trace uid ∧
    (uid = 0 →
        drop_privileges_trace uid =
          [Event.setgroupsCall, Event.setgidCall, Event.setuidCall, Event.umaskCall]) ∧
    (uid ≠ 0 → drop_privileges_trace uid = []) := by
  refine ⟨rfl, ?_, ?_⟩
  · intro h; simp [drop_privileges_trace, h]
  · intro h; simp [drop_privileges_trace, h]

/-- Witness for C7's amended theorem at uid 0 and uid 1000. -/
theorem c7_amended_witness :
    drop_privileges_trace 0 =
        [Event.setgroupsCall, Event.setgidCall, Event.setuidCall, Event.umaskCall] ∧
    drop_privileges_trace 1000 = [] :=
  ⟨(c7_amended 0).2.1 rfl, (c7_amended 1000).2.2 (by decide)⟩

/-- Claim C3, counterexample: a datagram that begins with the recognized
verb M-SEARCH but whose request line has only two space-separated
tokens makes the dispatcher iteration raise a ValueError instead of
dropping the input — the dispatcher loop crashes on this datagram. -/
theorem c3_counterexample :
    runStep (fun _ => true) none
        (bytes "M-SEARCH *\nHOST: 239.255.255.250:1900", ("192.168.0.7", 50000)) 0 0 =
      ⟨[], 0, 0, .error .valueError⟩ := by
  rfl

/-- Claim C3, amended: a datagram that does not begin with a recognized
verb token is dropped without raising, but a recognized-verb datagram
whose request line does not split into exactly three space-separated
tokens, or one of whose header lines lacks a colon, raises an uncaught
ValueError in the dispatcher loop. -/
theorem c3_amended :
    (∀ (data : Bytes) (sender : Addr) (oracle : SendOracle)
        (services : Option (List SDescr)) (sc w : Nat),
        recognizedVerb data = false →
        runStep oracle services (data, sender) sc w = ⟨[], sc, w, .ok ()⟩) ∧
    (runStep (fun _ => true) none
        (bytes "M-SEARCH * HTTP/1.1 V2\nST: a", ("192.168.0.7", 50000)) 0 0).result =
      .error .valueError ∧
    (runStep (fun _ => true) none
        (bytes "M-SEARCH * HTTP/1.1\nST a", ("192.168.0.7", 50000)) 0 0).result =
      .error .valueError := by
  refine ⟨?_, rfl, rfl⟩
  intro data sender oracle services sc w h
  have hps : parse_search_request (data, sender) = .ok none := by
    simp [parse_search_request, h]
  simp [runStep, parse_request, request_handlers, tryHandlers, hps]

/-- Witness for C3's amended theorem: an unrecognized datagram is
dropped without any event or error. -/
theorem c3_amended_witness :
    runStep (fun _ => true) none (bytes "GET / HTTP/1.0", ("192.168.0.2", 4000)) 0 0 =
      ⟨[], 0, 0, .ok ()⟩ :=
  c3_amended.1 (bytes "GET / HTTP/1.0") ("192.168.0.2", 4000) (fun _ => true) none 0 0
    (by decide)

/-- Claim C6, counterexample: with one descriptor holding two services
that both match the request (ST value ssdp:all) and a transport whose
first send raises, respond_ok_static attempts exactly one send and
ends in OSError — the remaining service's send is not attempted,
although with a healthy transport the same request produces two
sends. -/
theorem c6_counterexample :
    ((respond_ok_static (fun _ => false)
        [⟨[], [[("st", PyVal.str "urn:x:1")], [("st", PyVal.str "urn:x:2")]], "N", "OKRESP"⟩]
        ⟨bytes "M-SEARCH", bytes "*", bytes "HTTP/1.1", [(bytes "ST", bytes "ssdp:all")],
         ("192.168.0.5", 1234)⟩ 0 0).trace.countP Event.isUnicast = 1) ∧
    ((respond_ok_static (fun _ => false)
        [⟨[], [[("st", PyVal.str "urn:x:1")], [("st", PyVal.str "urn:x:2")]], "N", "OKRESP"⟩]
        ⟨bytes "M-SEARCH", bytes "*", bytes "HTTP/1.1", [(bytes "ST", bytes "ssdp:all")],
         ("192.168.0.5", 1234)⟩ 0 0).result = .error .oserror) ∧
    ((respond_ok_static (fun _ => true)
        [⟨[], [[("st", PyVal.str "urn:x:1")], [("st", PyVal.str "urn:x:2")]], "N", "OKRESP"⟩]
        ⟨bytes "M-SEARCH", bytes "*", bytes "HTTP/1.1", [(bytes "ST", bytes "ssdp:all")],
         ("192.168.0.5", 1234)⟩ 0 0).trace.countP Event.isUnicast = 2) := by
  exact ⟨by rfl, by rfl, by rfl⟩

/-! Lemmas about placeholder-free values and dict operations (used by
the amended C8 and C6). -/

theorem pyFormatGo_braceFree (m : Fmt) :
    ∀ l : Bytes, braceFreeChars l = true → pyFormatGo m none l = .ok l := by
  intro l
  induction l with
  | nil => intro _; rfl
  | cons c rest ih =>
    intro h
    rw [braceFreeChars, List.all_cons] at h
    simp only [Bool.and_eq_true, decide_eq_true_eq] at h
    obtain ⟨⟨hc1, hc2⟩, hrest⟩ := h
    cases rest with
    | nil =>
      simp [pyFormatGo, hc1, hc2]
      rfl
    | cons r rest2 =>
      have hr := ih hrest
      simp [pyFormatGo, hc1, hc2, hr]
      rfl

theorem pyFormat_braceFree (m : Fmt) (s : String) (h : braceFreeChars s.data = true) :
    pyFormat m s = .ok s := by
  simp [pyFormat, pyFormatGo_braceFree m s.data h]

theorem lookup_update_self (k : String) (v : PyVal) :
    ∀ m : Fmt, lookupVal (updateVal m k v) k = some v := by
  intro m
  induction m with
  | nil => simp [updateVal, lookupVal, List.find?]
  | cons p rest ih =>
    obtain ⟨k1, v1⟩ := p
    by_cases hk : k1 = k
    · simp [updateVal, hk, lookupVal, List.find?]
    · simp only [updateVal, if_neg hk]
      simpa [lookupVal, List.find?, hk] using ih

theorem lookup_update_other (k k1 : String) (v : PyVal) (h : k1 ≠ k) :
    ∀ m : Fmt, lookupVal (updateVal m k1 v) k = lookupVal m k := by
  intro m
  induction m with
  | nil => simp [updateVal, lookupVal, List.find?, h]
  | cons p rest ih =>
    obtain ⟨k2, v2⟩ := p
    by_cases hk : k2 = k1
    · subst hk
      simp [updateVal, lookupVal, List.find?, h]
    · simp only [updateVal, if_neg hk]
      by_cases hk2 : k2 = k
      · simp [lookupVal, List.find?, hk2]
      · simpa [lookupVal, List.find?, hk2] using ih

theorem overlay_keys_absent (k : String) :
    ∀ (svc : List (String × PyVal)) (m : Fmt),
      (∀ p ∈ svc, p.1 ≠ k) →
      lookupVal (overlayService m svc) k = lookupVal m k := by
  intro svc
  induction svc with
  | nil => intro m _; rfl
  | cons p rest ih =>
    obtain ⟨k1, v1⟩ := p
    intro m habs
    have h1 : k1 ≠ k := habs (k1, v1) (by simp)
    have h2 : ∀ p ∈ rest, p.1 ≠ k := fun p hp => habs p (by simp [hp])
    simp only [overlayService]
    rw [ih (updateVal m k1 v1) h2, lookup_update_other k k1 v1 h1]

theorem overlay_lookup (k : String) (v : PyVal) :
    ∀ (svc : List (String × PyVal)) (m : Fmt),
      lookupVal svc k = some v → (svc.map Prod.fst).Nodup →
      lookupVal (overlayService m svc) k = some v := by
  intro svc
  induction svc with
  | nil => intro m hl _; simp [lookupVal, List.find?] at hl
  | cons p rest ih =>
    obtain ⟨k1, v1⟩ := p
    intro m hl hnd
    simp only [List.map_cons, List.nodup_cons] at hnd
    obtain ⟨hk1, hndr⟩ := hnd
    by_cases hk : k1 = k
    · subst hk
      have hv : v = v1 := by
        simp [lookupVal, List.find?] at hl
        exact hl.symm
      have habs : ∀ p ∈ rest, p.1 ≠ k1 := by
        intro p hp hcontra
        exact hk1 (hcontra ▸ List.mem_map_of_mem Prod.fst hp)
      simp only [overlayService]
      rw [overlay_keys_absent k1 rest (updateVal m k1 v1) habs,
          lookup_update_self k1 v1, hv]
    · have hl2 : lookupVal rest k = some v := by
        simpa [lookupVal, List.find?, hk] using hl
      simp only [overlayService]
      exact ih (updateVal m k1 v1) hl2 hndr

theorem substKeys_preserve (k : String) (v : PyVal) (hfree : braceFreeVal v = true) :
    ∀ (keys : List String) (fmt m : Fmt),
      substKeys fmt keys = .ok m → lookupVal fmt k = some v →
      lookupVal m k = some v := by
  intro keys
  induction keys with
  | nil =>
    intro fmt m h hv
    simp only [substKeys] at h
    cases h
    exact hv
  | cons k1 rest ih =>
    intro fmt m h hv
    by_cases hk : k1 = k
    · subst hk
      cases v with
      | int n =>
        simp only [substKeys, hv] at h
        exact ih fmt m h hv
      | str s =>
        have hfree2 : braceFreeChars s.data = true := hfree
        have hpf := pyFormat_braceFree fmt s hfree2
        simp only [substKeys, hv, hpf] at h
        exact ih _ m h (by rw [lookup_update_self])
    · cases hl : lookupVal fmt k1 with
      | none =>
        simp only [substKeys, hl] at h
        exact ih fmt m h hv
      | some v1 =>
        cases v1 with
        | int n =>
          simp only [substKeys, hl] at h
          exact ih fmt m h hv
        | str s =>
          cases hf : pyFormat fmt s with
          | error e => simp [substKeys, hl, hf] at h
          | ok s2 =>
            simp only [substKeys, hl, hf] at h
            exact ih _ m h (by rw [lookup_update_other k k1 _ hk]; exact hv)

/-- Claim C8, amended: for a key k present in both the descriptor's
params and the Service entry, the merged mapping (after evaluating the
params and overlaying the Service entry, before the substitution pass)
associates k with the Service entry's value — the Service wins on
conflict and the param's value at k is discarded — and the final
mapping produced by create_fmt associates k with the result of the
single substitution pass on that value, which is the Service entry's
value itself whenever it is a non-string or a placeholder-free
string. -/
theorem c8_override (params : List (String × ParamVal)) (service : ServiceEntry)
    (k : String) (v : PyVal) (w : Nat)
    (hsvc : lookupVal service k = some v)
    (hnd : (service.map Prod.fst).Nodup) :
    lookupVal (overlayService (evalParamsAux [] params w).1 service) k = some v ∧
    (braceFreeVal v = true →
      ∀ m : Fmt, (create_fmt params service w).1 = .ok m → lookupVal m k = some v) := by
  have hov := overlay_lookup k v service (evalParamsAux [] params w).1 hsvc hnd
  refine ⟨hov, ?_⟩
  intro hfree m hm
  simp only [create_fmt, substPass] at hm
  exact substKeys_preserve k v hfree _ _ m hm hov

/-- Witness for C8's amended theorem: params k = "paramval" overridden
by Service k = "svc" yields "svc" in both the merged and the final
mapping. -/
theorem c8_override_witness :
    lookupVal
        (overlayService
          (evalParamsAux [] [("k", ParamVal.lit (PyVal.str "paramval"))] 0).1
          [("k", PyVal.str "svc")]) "k" = some (PyVal.str "svc") ∧
    lookupVal [("k", PyVal.str "svc")] "k" = some (PyVal.str "svc") :=
  ⟨(c8_override [("k", ParamVal.lit (PyVal.str "paramval"))] [("k", PyVal.str "svc")]
      "k" (PyVal.str "svc") 0 (by rfl) (by decide)).1,
   (c8_override [("k", ParamVal.lit (PyVal.str "paramval"))] [("k", PyVal.str "svc")]
      "k" (PyVal.str "svc") 0 (by rfl) (by decide)).2 (by decide)
      [("k", PyVal.str "svc")] (by rfl)⟩

/-- Claim C6, amended: a failing send raises OSError and aborts the
surrounding iteration: for any two services whose placeholder-free
search targets are st1 and st2 and any requester address, a request
matching both (generic ST value ssdp:all) with a transport whose first
send fails produces exactly one attempted send and the OSError — the
second service's send is never attempted (and the match log is
skipped). -/
theorem c6_send_failure_aborts (st1 st2 host : String) (port : Nat)
    (h1 : braceFreeChars st1.data = true) :
    respond_ok_static (fun _ => false)
        [⟨[], [[("st", PyVal.str st1)], [("st", PyVal.str st2)]], "N", "OKRESP"⟩]
        ⟨bytes "M-SEARCH", bytes "*", bytes "HTTP/1.1", [(bytes "ST", bytes "ssdp:all")],
         (host, port)⟩ 0 0 =
      ⟨[Event.unicastSend (bytes "OKRESP") (host, port)], 1, 0, .error .oserror⟩ := by
  have e1 : pyFormat [("st", PyVal.str st1)] st1 = .ok st1 :=
    pyFormat_braceFree _ _ h1
  have hc : create_fmt [] [("st", PyVal.str st1)] 0 = (.ok [("st", PyVal.str st1)], 0) := by
    simp [create_fmt, evalParamsAux, overlayService, updateVal, substPass, substKeys,
          lookupVal, List.find?, e1]
  simp only [respond_ok_static, respondDescrLoop, respondServiceLoop, hc]
  rfl

/-- Witness for C6's amended theorem: concrete targets urn:x:1 and
urn:x:2, one attempted send, OSError, nothing for the second
service. -/
theorem c6_send_failure_aborts_witness :
    respond_ok_static (fun _ => false)
        [⟨[], [[("st", PyVal.str "urn:x:1")], [("st", PyVal.str "urn:x:2")]], "N", "OKRESP"⟩]
        ⟨bytes "M-SEARCH", bytes "*", bytes "HTTP/1.1", [(bytes "ST", bytes "ssdp:all")],
         ("192.168.0.5", 1234)⟩ 0 0 =
      ⟨[Event.unicastSend (bytes "OKRESP") ("192.168.0.5", 1234)], 1, 0, .error .oserror⟩ :=
  c6_send_failure_aborts "urn:x:1" "urn:x:2" "192.168.0.5" 1234 (by decide)

/-- Claim C1: search-target matching.  For a service whose resolved
field mapping fmt (produced by create_fmt) has the ASCII search target
stS, and a healthy transport, the ST loop of respond_ok_static sends
one search response to the requester per listed ST value that either
starts with the generic-discovery prefix b"ssdp:" or is byte-for-byte
equal to stS — and none for any other value: the sends are exactly the
image of the matching values, the attempt counter advances by their
number, and the found flag records whether any value matched. -/
theorem c1_search_target_matching
    (params : List (String × ParamVal)) (service : ServiceEntry) (w : Nat)
    (okT : String) (fmt : Fmt) (remote : Addr) (found : Bool) (sc : Nat)
    (stVals : List Bytes) (stS rendered : String)
    (hfmt : (create_fmt params service w).1 = .ok fmt)
    (hst : lookupVal fmt "st" = some (PyVal.str stS))
    (hascii : asciiOnly stS = true)
    (hrender : pyFormat fmt okT = .ok rendered)
    (hrascii : asciiOnly (crlfReplace rendered) = true) :
    respondSTLoop (fun _ => true) okT fmt remote found sc stVals =
      ((stVals.filter
          (fun rt => (bytes "ssdp:").isPrefixOf rt || decide (stS.data = rt))).map
          (fun _ => Event.unicastSend (crlfReplace rendered).data remote),
       sc + (stVals.filter
          (fun rt => (bytes "ssdp:").isPrefixOf rt || decide (stS.data = rt))).length,
       .ok (found ||
          !(stVals.filter
              (fun rt => (bytes "ssdp:").isPrefixOf rt ||
                decide (stS.data = rt))).isEmpty)) := by
  induction stVals generalizing found sc with
  | nil => simp [respondSTLoop]
  | cons rt rest ih =>
    have henc : encodeAscii (crlfReplace rendered) = .ok (crlfReplace rendered).data := by
      simp [encodeAscii, hrascii]
    have hencst : encodeAscii stS = .ok stS.data := by
      simp [encodeAscii, hascii]
    by_cases hp : (bytes "ssdp:").isPrefixOf rt = true
    · have hcond : ((bytes "ssdp:").isPrefixOf rt || decide (stS.data = rt)) = true := by
        simp [hp]
      rw [List.filter_cons, if_pos hcond]
      simp only [respondSTLoop, hrender, henc, if_pos hp]
      rw [ih true (sc + 1)]
      simp only [List.map_cons, List.length_cons, List.isEmpty_cons, Prod.mk.injEq,
                 Bool.true_or, Bool.or_true, Bool.not_false, Except.ok.injEq]
      simp only [if_true, Prod.mk.injEq, eq_self_iff_true, true_and, and_true]
      omega
    · simp only [respondSTLoop, hrender, henc, if_neg hp, hst, hencst]
      by_cases heq : stS.data = rt
      · have hcond : ((bytes "ssdp:").isPrefixOf rt || decide (stS.data = rt)) = true := by
          simp [heq]
        rw [List.filter_cons, if_pos hcond, if_pos heq]
        rw [ih true (sc + 1)]
        simp only [List.map_cons, List.length_cons, List.isEmpty_cons, Prod.mk.injEq,
                   Bool.true_or, Bool.or_true, Bool.not_false, Except.ok.injEq]
        simp only [if_true, Prod.mk.injEq, eq_self_iff_true, true_and, and_true]
        omega
      · have hcond : ¬ (((bytes "ssdp:").isPrefixOf rt || decide (stS.data = rt)) = true) := by
          simp [hp, heq]
        rw [List.filter_cons, if_neg hcond, if_neg heq]
        exact ih found sc

/-- Witness for C1: a service with st urn:test:device:1 answers the ST
values urn:test:device:1 and ssdp:all but not urn:test:device:2. -/
theorem c1_search_target_matching_witness :
    respondSTLoop (fun _ => true) "RESP" [("st", PyVal.str "urn:test:device:1")]
        ("10.0.0.9", 1900) false 0
        [bytes "urn:test:device:1", bytes "urn:test:device:2", bytes "ssdp:all"] =
      ([Event.unicastSend (bytes "RESP") ("10.0.0.9", 1900),
        Event.unicastSend (bytes "RESP") ("10.0.0.9", 1900)], 2, .ok true) := by
  have h := c1_search_target_matching [] [("st", PyVal.str "urn:test:device:1")] 0
      "RESP" [("st", PyVal.str "urn:test:device:1")] ("10.0.0.9", 1900) false 0
      [bytes "urn:test:device:1", bytes "urn:test:device:2", bytes "ssdp:all"]
      "urn:test:device:1" "RESP" (by rfl) (by rfl) (by rfl) (by rfl) (by rfl)
  rw [h]
  rfl

/-! Lemmas for C5: parse_request against the spec-side header
multimap. -/

theorem parse_request_eq (item : Bytes × Addr) :
    parse_request item = parse_search_request item := by
  cases h : parse_search_request item with
  | error e => simp [parse_request, request_handlers, tryHandlers, h]
  | ok o =>
    cases o with
    | none => simp [parse_request, request_handlers, tryHandlers, h]
    | some r => simp [parse_request, request_handlers, tryHandlers, h]

theorem parseHeaderLines_getHeader (name : Bytes) :
    ∀ (lines : List Bytes) (pairs : List (Bytes × Bytes)),
      parseHeaderLines lines = .ok pairs →
      (pairs.filter (fun p => decide (p.1 = name))).map (fun p => p.2) =
        specLineValues lines name := by
  intro lines
  induction lines with
  | nil =>
    intro pairs h
    simp only [parseHeaderLines] at h
    cases h
    simp [specLineValues]
  | cons l rest ih =>
    intro pairs h
    by_cases hl : pstrip l = []
    · simp [parseHeaderLines, hl] at h
      rw [ih pairs h]
      simp [specLineValues, List.filterMap_cons, hl]
    · cases hs : splitFirst ':' (pstrip l) with
      | none => simp [parseHeaderLines, hl, hs] at h
      | some hv =>
        obtain ⟨hd, v⟩ := hv
        cases hrec : parseHeaderLines rest with
        | error e => simp [parseHeaderLines, hl, hs, hrec] at h
        | ok tl =>
          simp [parseHeaderLines, hl, hs, hrec] at h
          subst h
          by_cases hn : hd = name
          · subst hn
            simp [List.filter_cons, specLineValues, List.filterMap_cons, hl, hs,
                  ih tl hrec]
          · simp [List.filter_cons, specLineValues, List.filterMap_cons, hl, hs, hn,
                  ih tl hrec]

/-- Claim C5: a datagram that does not begin with a recognized verb
token parses to absent; and whenever parse returns a Request, its
header multimap gives, for every header name, exactly the values of
that name's header lines in original order of appearance (each line
split on the first colon, value whitespace-trimmed, repeats
preserved), as described by the spec-side specHeaderValues. -/
theorem c5_parse_multimap :
    (∀ (data : Bytes) (sender : Addr),
        recognizedVerb data = false → parse_request (data, sender) = .ok none) ∧
    (∀ (data : Bytes) (sender : Addr) (req : Request),
        parse_request (data, sender) = .ok (some req) →
        ∀ name : Bytes, req.getHeader name = specHeaderValues data name) := by
  constructor
  · intro data sender h
    rw [parse_request_eq]
    simp [parse_search_request, h]
  · intro data sender req h name
    rw [parse_request_eq] at h
    simp only [parse_search_request] at h
    split at h
    case isFalse => simp at h
    case isTrue hrec =>
      split at h
      case h_1 => simp at h
      case h_2 http hdrs heq1 =>
        split at h
        case h_2 => simp at h
        case h_1 m p v heq2 =>
          split at h
          case h_1 e heq3 => simp at h
          case h_2 pairs heq3 =>
            simp only [Except.ok.injEq, Option.some.injEq] at h
            subst h
            simp only [specHeaderValues, heq1]
            exact parseHeaderLines_getHeader name _ pairs heq3

/-- Witness for C5: a datagram with a repeated ST header yields the ST
values urn:a then urn:b in order, and an unrecognized datagram parses
to absent. -/
theorem c5_parse_multimap_witness :
    Request.getHeader
        ⟨bytes "M-SEARCH", bytes "*", bytes "HTTP/1.1",
         [(bytes "ST", bytes "urn:a"), (bytes "HOST", bytes "x"), (bytes "ST", bytes "urn:b")],
         ("10.0.0.3", 40000)⟩ (bytes "ST") =
      specHeaderValues (bytes "M-SEARCH * HTTP/1.1\nST: urn:a\nHOST: x\nST: urn:b\n")
        (bytes "ST") ∧
    parse_request (bytes "GET / HTTP/1.0", ("10.0.0.3", 40000)) = .ok none :=
  ⟨c5_parse_multimap.2 (bytes "M-SEARCH * HTTP/1.1\nST: urn:a\nHOST: x\nST: urn:b\n")
      ("10.0.0.3", 40000)
      ⟨bytes "M-SEARCH", bytes "*", bytes "HTTP/1.1",
       [(bytes "ST", bytes "urn:a"), (bytes "HOST", bytes "x"), (bytes "ST", bytes "urn:b")],
       ("10.0.0.3", 40000)⟩ (by rfl) (bytes "ST"),
   c5_parse_multimap.1 (bytes "GET / HTTP/1.0") ("10.0.0.3", 40000) (by rfl)⟩

/-! Lemmas for C4: which NTS tags each path can emit. -/

theorem notifyServiceLoop_nts (oracle : SendOracle) (sd : SDescr) (nts : String)
    (dest : Addr) :
    ∀ (svcs : List ServiceEntry) (sc w : Nat) (e : Event),
      e ∈ (notifyServiceLoop oracle sd nts dest sc w svcs).1 → e.ntsOf = some nts := by
  intro svcs
  induction svcs with
  | nil => intro sc w e he; simp [notifyServiceLoop] at he
  | cons svc rest ih =>
    intro sc w e he
    simp only [notifyServiceLoop] at he
    split at he
    · simp at he
    · split at he
      · simp at he
      · split at he
        · simp at he
        · split at he
          · simp only [List.mem_cons] at he
            rcases he with he | he
            · subst he; rfl
            · exact ih _ _ _ he
          · simp at he
            subst he; rfl

theorem notifyDescrLoop_nts (oracle : SendOracle) (nts : String) (dest : Addr) :
    ∀ (svcs : List SDescr) (sc w : Nat) (e : Event),
      e ∈ (notifyDescrLoop oracle nts dest sc w svcs).1 → e.ntsOf = some nts := by
  intro svcs
  induction svcs with
  | nil => intro sc w e he; simp [notifyDescrLoop] at he
  | cons sd rest ih =>
    intro sc w e he
    simp only [notifyDescrLoop] at he
    split at he
    · exact notifyServiceLoop_nts oracle sd nts dest sd.services sc w e he
    · simp only [List.mem_append] at he
      rcases he with he | he
      · exact notifyServiceLoop_nts oracle sd nts dest sd.services sc w e he
      · exact ih _ _ _ he

theorem do_notify_nts (oracle : SendOracle) (svcs : List SDescr) (nts : String)
    (dest : Addr) (sc w : Nat) :
    ∀ e ∈ (do_notify oracle svcs nts dest sc w).trace, e.ntsOf = some nts :=
  fun e he => notifyDescrLoop_nts oracle nts dest svcs sc w e he

theorem respondSTLoop_no_nts (oracle : SendOracle) (okT : String) (fmt : Fmt)
    (remote : Addr) :
    ∀ (stVals : List Bytes) (found : Bool) (sc : Nat) (e : Event),
      e ∈ (respondSTLoop oracle okT fmt remote found sc stVals).1 → e.ntsOf = none := by
  intro stVals
  induction stVals with
  | nil => intro found sc e he; simp [respondSTLoop] at he
  | cons rt rest ih =>
    intro found sc e he
    simp only [respondSTLoop] at he
    split at he
    · split at he
      · simp at he
      · split at he
        · simp at he
        · split at he
          · simp only [List.mem_cons] at he
            rcases he with he | he
            · subst he; rfl
            · exact ih _ _ _ he
          · simp at he
            subst he; rfl
    · split at he
      · simp at he
      · simp at he
      · split at he
        · simp at he
        · split at he
          · split at he
            · simp at he
            · split at he
              · simp at he
              · split at he
                · simp only [List.mem_cons] at he
                  rcases he with he | he
                  · subst he; rfl
                  · exact ih _ _ _ he
                · simp at he
                  subst he; rfl
          · exact ih _ _ _ he

theorem respondServiceLoop_no_nts (oracle : SendOracle) (sd : SDescr)
    (stVals : List Bytes) (remote : Addr) :
    ∀ (svcs : List ServiceEntry) (found : Bool) (sc w : Nat) (e : Event),
      e ∈ (respondServiceLoop oracle sd stVals remote found sc w svcs).1 →
      e.ntsOf = none := by
  intro svcs
  induction svcs with
  | nil => intro found sc w e he; simp [respondServiceLoop] at he
  | cons svc rest ih =>
    intro found sc w e he
    simp only [respondServiceLoop] at he
    split at he
    · simp at he
    · split at he
      · exact respondSTLoop_no_nts oracle sd.OK _ remote stVals found sc e he
      · simp only [List.mem_append] at he
        rcases he with he | he
        · exact respondSTLoop_no_nts oracle sd.OK _ remote stVals found sc e he
        · exact ih _ _ _ _ he

theorem respondDescrLoop_no_nts (oracle : SendOracle) (stVals : List Bytes)
    (remote : Addr) :
    ∀ (svcs : List SDescr) (found : Bool) (sc w : Nat) (e : Event),
      e ∈ (respondDescrLoop oracle stVals remote found sc w svcs).1 →
      e.ntsOf = none := by
  intro svcs
  induction svcs with
  | nil => intro found sc w e he; simp [respondDescrLoop] at he
  | cons sd rest ih =>
    intro found sc w e he
    simp only [respondDescrLoop] at he
    split at he
    · exact respondServiceLoop_no_nts oracle sd stVals remote sd.services found sc w e he
    · simp only [List.mem_append] at he
      rcases he with he | he
      · exact respondServiceLoop_no_nts oracle sd stVals remote sd.services found sc w e he
      · exact ih _ _ _ _ he

theorem respond_ok_no_nts (oracle : SendOracle) (services : Option (List SDescr))
    (req : Request) (sc w : Nat) :
    ∀ e ∈ (respond_ok oracle services req sc w).trace, e.ntsOf = none := by
  intro e he
  cases services with
  | none => simp [respond_ok] at he
  | some svcs =>
    simp only [respond_ok, respond_ok_static] at he
    split at he
    · exact respondDescrLoop_no_nts oracle _ req.REMOTE svcs false sc w e he
    · simp only [List.mem_append] at he
      rcases he with he | he
      · exact respondDescrLoop_no_nts oracle _ req.REMOTE svcs false sc w e he
      · simp at he
        subst he; rfl

theorem runStep_no_nts (oracle : SendOracle) (services : Option (List SDescr))
    (item : Bytes × Addr) (sc w : Nat) :
    ∀ e ∈ (runStep oracle services item sc w).trace, e.ntsOf = none := by
  intro e he
  simp only [runStep] at he
  split at he
  · simp at he
  · simp at he
  · split at he
    · exact respond_ok_no_nts oracle services _ sc w e he
    · simp at he

/-- Claim C4: shutdown ordering.  The shutdown trace begins with
setting RunState to 0 and joining the scheduler and then the receiver;
every notify-path send in the trace occurs strictly after those three
events and carries the NTS value ssdp:goodbye; the dispatcher path
never emits a notify-path send at all; and the scheduler's periodic
pass emits only ssdp:alive sends — so the single goodbye announcement
pass happens only inside shutdown, after both background units were
joined. -/
theorem c4_shutdown_ordering (oracle : SendOracle) (svcs : List SDescr) (dest : Addr)
    (sc w : Nat) :
    (shutdown oracle svcs dest sc w).trace.take 3 =
        [Event.setRunning 0, Event.joinUnit "schedule", Event.joinUnit "reciever"] ∧
    (∀ (i : Nat) (hi : i < (shutdown oracle svcs dest sc w).trace.length),
        ((shutdown oracle svcs dest sc w).trace.get ⟨i, hi⟩).ntsOf ≠ none → 3 ≤ i) ∧
    (∀ e ∈ (shutdown oracle svcs dest sc w).trace,
        e.ntsOf ≠ none → e.ntsOf = some "ssdp:goodbye") ∧
    (∀ (services : Option (List SDescr)) (item : Bytes × Addr) (sc2 w2 : Nat),
        ∀ e ∈ (runStep oracle services item sc2 w2).trace, e.ntsOf = none) ∧
    (∀ e ∈ (schedule_tick oracle svcs dest sc w).trace, e.ntsOf = some "ssdp:alive") := by
  have htr : ∃ tail : List Event,
      (shutdown oracle svcs dest sc w).trace =
        Event.setRunning 0 :: Event.joinUnit "schedule" :: Event.joinUnit "reciever" ::
          ((do_notify oracle svcs "ssdp:goodbye" dest sc w).trace ++ tail) ∧
      (∀ e ∈ tail, e.ntsOf = none) := by
    simp only [shutdown]
    split
    · exact ⟨[], by simp, by simp⟩
    · refine ⟨[Event.logInfo "Shutdown", Event.logInfo "---------------------------"],
        by simp, ?_⟩
      intro e he
      simp only [List.mem_cons, List.not_mem_nil, or_false] at he
      rcases he with he | he <;> (subst he; rfl)
  obtain ⟨tail, htr, htail⟩ := htr
  refine ⟨?_, ?_, ?_, ?_, ?_⟩
  · rw [htr]; rfl
  · intro i hi hnts
    by_contra hlt
    push_neg at hlt
    interval_cases i <;>
      (rw [List.get_of_eq htr] at hnts; exact hnts rfl)
  · intro e he hnts
    rw [htr] at he
    simp only [List.mem_cons, List.mem_append] at he
    rcases he with he | he | he | he | he
    · subst he; exact absurd rfl hnts
    · subst he; exact absurd rfl hnts
    · subst he; exact absurd rfl hnts
    · exact do_notify_nts oracle svcs "ssdp:goodbye" dest sc w e he
    · exact absurd (htail e he) hnts
  · intro services item sc2 w2 e he
    exact runStep_no_nts oracle services item sc2 w2 e he
  · intro e he
    exact do_notify_nts oracle svcs "ssdp:alive" dest sc w e he

/-- Witness for C4 at a one-service configuration: the first three
shutdown events are the RunState flip and the two joins, and the
goodbye send sits at index 3, after them. -/
theorem c4_shutdown_ordering_witness :
    (shutdown (fun _ => true) [⟨[], [[]], "N", "O"⟩] ("239.255.255.250", 1900) 0 0).trace.take 3 =
        [Event.setRunning 0, Event.joinUnit "schedule", Event.joinUnit "reciever"] ∧
    3 ≤ 3 :=
  ⟨(c4_shutdown_ordering (fun _ => true) [⟨[], [[]], "N", "O"⟩] ("239.255.255.250", 1900)
      0 0).1,
   (c4_shutdown_ordering (fun _ => true) [⟨[], [[]], "N", "O"⟩] ("239.255.255.250", 1900)
      0 0).2.1 3 (by decide) (by decide)⟩

end StaticUpnp
